import Mathlib

/-
Verification of the SelfDB JS SDK core against its specification.

The development shallowly embeds the SDK's transport layer (HttpClient in
src/utils.ts), the auth manager (AuthClient in src/auth/client.ts) and the
realtime manager (RealtimeClient in src/realtime/client.ts) as executable
Lean functions.  Asynchronous effects are made explicit: the outcome of each
network attempt is an input to the embedded function, and side effects
(auth state, persisted storage, scheduled timers) are returned as data.
JavaScript truthiness on strings (the empty string is falsy) is modelled
explicitly wherever the source relies on it.
-/

namespace SelfDB

/-- JavaScript truthiness of a string: every string except the empty string
is truthy. -/
def strTruthy (s : String) : Bool :=
  !(s == "")

/-- JavaScript truthiness of an optional string (undefined and the empty
string are falsy). -/
def optStrTruthy : Option String → Bool
  | none => false
  | some s => strTruthy s

/-- JavaScript `a || b` on an optional string: returns the first operand
when it is truthy (present and non-empty), otherwise the default. -/
def jsStrOr (o : Option String) (d : String) : String :=
  match o with
  | none => d
  | some s => if s = "" then d else s

/-! ## Transport layer: `HttpClient` from src/utils.ts -/

/-- Response body attached to an HTTP response, as used by
`HttpClient.handleAxiosError`: the body may expose a `message` field
(`(error.response.data as any)?.message`), and the rest is opaque. -/
structure RespData where
  message : Option String
  body : String
deriving DecidableEq, Repr

/-- The typed error taxonomy of src/errors.ts, restricted to the
constructors the transport and auth layers throw.  `apiError` corresponds
to `ApiError` (carries status and response body), `authError` to
`AuthError` (a distinct subclass of `SelfDBError`; an `ApiError` with
status 401 is *not* an `AuthError`). -/
inductive SdkError where
  | timeoutError (msg : String)
  | networkError (msg : String)
  | apiError (msg : String) (status : Nat) (data : RespData)
  | authError (msg : String)
deriving DecidableEq, Repr

/-- Everything `HttpClient.request` can throw: a typed SDK error, a
non-axios value rethrown as-is, or the unreachable
`throw lastError || new Error('Unknown error occurred')` fallback. -/
inductive ReqError where
  | sdk (e : SdkError)
  | foreign (tag : String)
  | unknownError
deriving DecidableEq, Repr

/-- An axios HTTP response as observed by the error path: status code and
body. -/
structure AxiosResponse where
  status : Nat
  data : RespData
deriving DecidableEq, Repr

/-- The shape of an `AxiosError` as consulted by `HttpClient`: the `code`
field (`'ECONNABORTED'` marks a timeout), the optional `response`, and the
error message. -/
structure AxiosError where
  code : Option String
  response : Option AxiosResponse
  message : String
deriving DecidableEq, Repr

/-- `HttpClient.handleAxiosError`: `ECONNABORTED` becomes `TimeoutError`,
a missing response becomes `NetworkError`, and a received response becomes
`ApiError` with the response status, the body, and a message taken from
`data?.message || error.message` (JS `||`, so an empty `data.message`
falls back to the axios message). -/
def handleAxiosError (e : AxiosError) : SdkError :=
  if e.code = some "ECONNABORTED" then
    .timeoutError "Request timeout"
  else
    match e.response with
    | none => .networkError "Network error occurred"
    | some r => .apiError (jsStrOr r.data.message e.message) r.status r.data

/-- Retry policy fixed per `HttpClient` instance. -/
structure RetryConfig where
  maxRetries : Nat
  baseDelay : Nat
  maxDelay : Nat
deriving DecidableEq, Repr

/-- `HttpClient.calculateDelay`: exponential backoff
`min(baseDelay * 2^attempt, maxDelay)`. -/
def calculateDelay (rc : RetryConfig) (attempt : Nat) : Nat :=
  min (rc.baseDelay * 2 ^ attempt) rc.maxDelay

/-- The outcome of one attempt of the underlying `axios(requestConfig)`
call: a successful response carrying the decoded body, an axios error, or
a non-axios thrown value. -/
inductive AttemptOutcome (α : Type) where
  | ok (v : α)
  | axios (e : AxiosError)
  | other (tag : String)
deriving DecidableEq, Repr

/-- The fail-fast test of `HttpClient.request`:
`error.response?.status && error.response.status < 500 && attempt === 0`.
A truthy status (non-zero) below 500 on the very first attempt aborts the
retry loop. -/
def failFastEligible (e : AxiosError) (attempt : Nat) : Bool :=
  match e.response with
  | some r => (!(r.status == 0)) && decide (r.status < 500) && (attempt == 0)
  | none => false

deriving instance DecidableEq for Except

/-- Observable result of one `HttpClient.request` call: the returned value
or thrown error, the number of attempts performed, and the backoff delays
inserted between attempts (in order). -/
structure RunResult (α : Type) where
  result : Except ReqError α
  attempts : Nat
  delays : List Nat
deriving DecidableEq, Repr

/-- The retry loop of `HttpClient.request`
(`for attempt = 0..maxRetries`), with the iterations still available
carried as structural fuel (`request` enters with `maxRetries + 1`, so the
fuel-exhausted branch — the source's unreachable
`throw lastError || new Error(...)` with no axios `lastError` — is never
hit).  Per iteration: a success returns the value; a non-axios error is
rethrown; an axios error on the first attempt with a truthy status below
500 is translated and thrown immediately; otherwise, while attempts
remain (`attempt < maxRetries`), a backoff delay is inserted and the
request is retried; after the last attempt the final axios error is
translated by `handleAxiosError` and thrown. -/
def requestLoop (rc : RetryConfig) (f : Nat → AttemptOutcome α) :
    Nat → Nat → RunResult α
  | _, 0 => ⟨.error .unknownError, 0, []⟩
  | attempt, fuel + 1 =>
    match f attempt with
    | .ok v => ⟨.ok v, 1, []⟩
    | .other tag => ⟨.error (.foreign tag), 1, []⟩
    | .axios e =>
      if failFastEligible e attempt then
        ⟨.error (.sdk (handleAxiosError e)), 1, []⟩
      else if attempt < rc.maxRetries then
        let rest := requestLoop rc f (attempt + 1) fuel
        ⟨rest.result, rest.attempts + 1, calculateDelay rc attempt :: rest.delays⟩
      else
        ⟨.error (.sdk (handleAxiosError e)), 1, []⟩

/-- `HttpClient.request`: run the retry loop from attempt 0 with
`maxRetries + 1` available iterations. -/
def request (rc : RetryConfig) (f : Nat → AttemptOutcome α) : RunResult α :=
  requestLoop rc f 0 (rc.maxRetries + 1)

/-- The backoff delays the loop inserts when it keeps failing, starting
from a given attempt index, for a given number of retried attempts. -/
def delaysFrom (rc : RetryConfig) (attempt : Nat) : Nat → List Nat
  | 0 => []
  | n + 1 => calculateDelay rc attempt :: delaysFrom rc (attempt + 1) n

/-- An attempt outcome the retry policy treats as transient on every
attempt: an axios failure carrying no response (network failure or
timeout) or a response with a server-error (5xx) status. -/
def isRetryableFailure {α : Type} : AttemptOutcome α → Bool
  | .axios e =>
    match e.response with
    | none => true
    | some r => decide (500 ≤ r.status)
  | _ => false

/-- The three transport-taxonomy error kinds; exactly those
`handleAxiosError` can produce. -/
def isTransportKind : SdkError → Bool
  | .timeoutError _ => true
  | .networkError _ => true
  | .apiError _ _ _ => true
  | .authError _ => false

/-- Concrete retry configuration used by witnesses. -/
def rcW : RetryConfig := ⟨3, 1000, 10000⟩

/-- A concrete axios error carrying a completed 404 response. -/
def axios404 : AxiosError :=
  ⟨none, some ⟨404, ⟨none, "nf"⟩⟩, "Request failed with status code 404"⟩

/-- A request whose every attempt would yield the 404 response. -/
def f404 : Nat → AttemptOutcome Nat := fun _ => .axios axios404

/-- A concrete axios error carrying a completed 500 response. -/
def axios500 : AxiosError :=
  ⟨none, some ⟨500, ⟨none, "ise"⟩⟩, "Request failed with status code 500"⟩

/-- Retry configuration with `maxRetries = 2` for the C4 counterexample. -/
def rcC4 : RetryConfig := ⟨2, 1, 10⟩

/-- Attempt outcomes: a 500 response on attempt 0, a 404 response on
attempt 1, success on attempt 2. -/
def fC4 : Nat → AttemptOutcome Nat := fun n =>
  match n with
  | 0 => .axios axios500
  | 1 => .axios axios404
  | _ => .ok 7

/-- Retry configuration for the C5 witness. -/
def rcTm : RetryConfig := ⟨2, 1000, 3000⟩

/-- Every attempt aborts with an `ECONNABORTED` timeout. -/
def fTm : Nat → AttemptOutcome Nat :=
  fun _ => .axios ⟨some "ECONNABORTED", none, "timeout of 10000ms exceeded"⟩

/-! ## Auth manager: `AuthClient` from src/auth/client.ts

State effects are embedded as pure functions from the pair of in-memory
auth state and persisted key-value storage to the same pair.  The outcome
of each network call is an explicit input.  JSON parsing of the persisted
user entry is a parameter: `JSON.parse` can throw, or return a JavaScript
value that the source casts to `User` unchecked — including `null` (for
the input string consisting of the four characters of the word null). -/

/-- The `User` record of src/auth/types.ts. -/
structure User where
  id : String
  email : String
  is_active : Bool
  is_superuser : Bool
  created_at : String
  updated_at : String
deriving DecidableEq, Repr

/-- The token pair of src/auth/types.ts. -/
structure AuthTokens where
  accessToken : String
  refreshToken : String
deriving DecidableEq, Repr

/-- The in-memory `AuthState` of src/auth/types.ts. -/
structure AuthState where
  user : Option User
  tokens : Option AuthTokens
  isAuthenticated : Bool
deriving DecidableEq, Repr

/-- The three persisted key-value entries (`access_token`,
`refresh_token`, `selfdb_user`); `none` models an absent entry. -/
structure Storage where
  access_token : Option String
  refresh_token : Option String
  selfdb_user : Option String
deriving DecidableEq, Repr

/-- In-memory auth state together with the persisted storage. -/
structure SdkState where
  auth : AuthState
  store : Storage
deriving DecidableEq, Repr

/-- The empty auth state `{user: null, tokens: null, isAuthenticated: false}`. -/
def emptyAuthState : AuthState := ⟨none, none, false⟩

/-- `AuthClient.clearAuthState`: reset the in-memory state and remove all
three persisted entries. -/
def clearAuthState (s : SdkState) : SdkState :=
  ⟨emptyAuthState, ⟨none, none, none⟩⟩

/-- Stand-in for `JSON.stringify(user)`; the claims never depend on the
serialized text, only on the entry being written. -/
def stringifyUser (u : User) : String :=
  "user:" ++ u.id ++ ":" ++ u.email

/-- `AuthClient.saveAuthState`: persist the three entries, but only when
both the token pair and the user are truthy (`if (tokens && user)`). -/
def saveAuthState (s : SdkState) : SdkState :=
  match s.auth.tokens, s.auth.user with
  | some t, some u =>
    ⟨s.auth, ⟨some t.accessToken, some t.refreshToken, some (stringifyUser u)⟩⟩
  | _, _ => s

/-- Result of `JSON.parse(userString) as User`: the parse can throw, or
produce a JavaScript value — possibly `null` — that the source stores
unchecked.  `val none` models a successful parse to `null`. -/
inductive ParseOutcome where
  | err
  | val (u : Option User)
deriving DecidableEq, Repr

/-- `AuthClient.loadAuthState`, run by the constructor: read the three
entries; when all three are truthy (present and non-empty), parse the user
entry — on success install the parsed user with both tokens and set
`isAuthenticated` to true, on a parse exception clear everything; when any
entry is absent or empty, leave the freshly constructed empty state (and
the storage) untouched. -/
def loadAuthState (store : Storage) (parse : String → ParseOutcome) : SdkState :=
  match store.access_token, store.refresh_token, store.selfdb_user with
  | some a, some r, some uStr =>
    if strTruthy a && strTruthy r && strTruthy uStr then
      match parse uStr with
      | .val u => ⟨⟨u, some ⟨a, r⟩, true⟩, store⟩
      | .err => clearAuthState ⟨emptyAuthState, store⟩
    else ⟨emptyAuthState, store⟩
  | _, _, _ => ⟨emptyAuthState, store⟩

/-- The auth-relevant request headers computed by
`AuthClient.getAuthHeaders`: the anon key whenever configured (truthy),
the bearer header only when authenticated with tokens present. -/
structure AuthHeaders where
  apikey : Option String
  authorization : Option String
deriving DecidableEq, Repr

/-- `AuthClient.getAuthHeaders`. -/
def getAuthHeaders (anonKey : String) (a : AuthState) : AuthHeaders :=
  { apikey := if strTruthy anonKey then some anonKey else none
    authorization :=
      match a.tokens with
      | some t => if a.isAuthenticated then some ("Bearer " ++ t.accessToken) else none
      | none => none }

/-- The login response body (src/auth/types.ts `LoginResponse`). -/
structure LoginResponse where
  access_token : String
  refresh_token : String
  token_type : String
  email : String
  user_id : String
  is_superuser : Bool
deriving DecidableEq, Repr

/-- State effect of `AuthClient.login`: on HTTP failure the state is
untouched (the `await` throws before any mutation); on success a user
record is constructed from the response (with the current ISO timestamp),
the full state is installed and persisted. -/
def loginStep (s : SdkState) (out : Option (LoginResponse × String)) : SdkState :=
  match out with
  | none => s
  | some (resp, nowIso) =>
    let u : User :=
      ⟨resp.user_id, resp.email, true, resp.is_superuser, nowIso, nowIso⟩
    saveAuthState
      ⟨⟨some u, some ⟨resp.access_token, resp.refresh_token⟩, true⟩, s.store⟩

/-- The guard of `AuthClient.refresh`:
`this.authState.tokens?.refreshToken` is truthy. -/
def refreshTokenTruthy (a : AuthState) : Bool :=
  match a.tokens with
  | some t => strTruthy t.refreshToken
  | none => false

/-- State effect of `AuthClient.refresh`: with no truthy refresh token it
throws `AuthError` before any call (state untouched); on HTTP failure the
state is untouched; on success only the access token is replaced and the
state re-persisted. -/
def refreshStep (s : SdkState) (out : Option String) : SdkState :=
  if refreshTokenTruthy s.auth then
    match out with
    | none => s
    | some newTok =>
      match s.auth.tokens with
      | some t =>
        saveAuthState
          ⟨⟨s.auth.user, some ⟨newTok, t.refreshToken⟩, s.auth.isAuthenticated⟩, s.store⟩
      | none => s
  else s

/-- Outcome of the `GET /api/v1/users/me` call inside `AuthClient.getUser`. -/
inductive GetUserOutcome where
  | ok (u : User)
  | authFailure
  | otherFailure
deriving DecidableEq, Repr

/-- State effect of `AuthClient.getUser`: unauthenticated returns null
without a call; a successful fetch replaces the cached user and
re-persists; a failure that is an `AuthError` clears all auth state; any
other failure leaves the state untouched. -/
def getUserStep (s : SdkState) (out : GetUserOutcome) : SdkState :=
  if s.auth.isAuthenticated then
    match out with
    | .ok u => saveAuthState ⟨⟨some u, s.auth.tokens, s.auth.isAuthenticated⟩, s.store⟩
    | .authFailure => clearAuthState s
    | .otherFailure => s
  else s

/-- The environment of one `AuthClient.makeAuthenticatedRequest` call: the
outcome of the first underlying `HttpClient.request` as a function of the
auth headers attached, the outcome of the refresh call (a new access token
or a failure), and the outcome of the retried request. -/
structure MarWorld (α : Type) where
  firstReq : AuthHeaders → Except ReqError α
  refreshOut : Option String
  retryReq : AuthHeaders → Except ReqError α

/-- Observable result of one `makeAuthenticatedRequest` call: the final
state, the returned value or thrown error, the number of times the
original request was attempted, and the number of refresh calls issued. -/
structure MarResult (α : Type) where
  state : SdkState
  result : Except ReqError α
  attempts : Nat
  refreshCalls : Nat
deriving DecidableEq, Repr

/-- The `error instanceof AuthError` test of `makeAuthenticatedRequest`.
Only the `AuthError` class matches; an `ApiError` with status 401 does
not. -/
def isAuthErrorThrown : ReqError → Bool
  | .sdk (.authError _) => true
  | _ => false

/-- `AuthClient.makeAuthenticatedRequest`: attach computed auth headers
and delegate to the transport.  On a thrown error that is an `AuthError`
while a truthy refresh token is stored: call `refresh()`, recompute
headers, retry once; if the refresh or the retry fails, clear all auth
state and rethrow the original error.  Any other error is rethrown
unchanged with no state effect. -/
def makeAuthenticatedRequest (anonKey : String) (s : SdkState) (w : MarWorld α) :
    MarResult α :=
  let headers := getAuthHeaders anonKey s.auth
  match w.firstReq headers with
  | .ok v => ⟨s, .ok v, 1, 0⟩
  | .error e =>
    if isAuthErrorThrown e && refreshTokenTruthy s.auth then
      match w.refreshOut with
      | none => ⟨clearAuthState s, .error e, 1, 1⟩
      | some newTok =>
        let s2 := refreshStep s (some newTok)
        let h2 := getAuthHeaders anonKey s2.auth
        match w.retryReq h2 with
        | .ok v => ⟨s2, .ok v, 2, 1⟩
        | .error _ => ⟨clearAuthState s2, .error e, 2, 1⟩
    else ⟨s, .error e, 1, 0⟩

/-- One operation on an `AuthClient`, with its outcome. -/
inductive AuthAction where
  | loginAct (out : Option (LoginResponse × String))
  | registerAct
  | refreshAct (out : Option String)
  | logoutAct
  | getUserAct (out : GetUserOutcome)
  | marAct (anonKey : String) (w : MarWorld Nat)

/-- The state effect of one `AuthClient` operation. -/
def stepAuth (s : SdkState) : AuthAction → SdkState
  | .loginAct out => loginStep s out
  | .registerAct => s
  | .refreshAct out => refreshStep s out
  | .logoutAct => clearAuthState s
  | .getUserAct out => getUserStep s out
  | .marAct k w => (makeAuthenticatedRequest k s w).state

/-- Run a sequence of `AuthClient` operations. -/
def runAuth (s0 : SdkState) : List AuthAction → SdkState
  | [] => s0
  | a :: rest => runAuth (stepAuth s0 a) rest

/-- The in-memory auth invariant of C6: the authenticated flag holds iff
both tokens and a user are present, and tokens and user are present or
absent together. -/
def AuthInvariant (a : AuthState) : Prop :=
  (a.isAuthenticated = true ↔ (a.tokens.isSome ∧ a.user.isSome)) ∧
  (a.tokens.isSome ↔ a.user.isSome)

instance (a : AuthState) : Decidable (AuthInvariant a) := by
  unfold AuthInvariant
  infer_instance

/-- Restoration hypothesis of the amended C6: whatever string sits in the
persisted user entry does not parse to JSON `null`.  SDK-written storage
satisfies this: `saveAuthState` serializes a non-null user object, and
`JSON.stringify` of an object never yields the word null. -/
def GoodRestore (store : Storage) (parse : String → ParseOutcome) : Prop :=
  ∀ uStr, store.selfdb_user = some uStr → parse uStr ≠ .val none

/-- A concrete user record for counterexamples and witnesses. -/
def sampleUser : User := ⟨"u1", "a@b.c", true, false, "t0", "t0"⟩

/-- Restriction of `JSON.parse ... as User` to the inputs the concrete
theorems use: the word null parses to the JSON null value, the two-byte
object string \x7b\x7d (an open and a close curly brace) parses to an
object — represented by `sampleUser` — and every other input is modelled
as throwing (no other input is ever parsed in the concrete theorems). -/
def jsonParseModel : String → ParseOutcome := fun s =>
  if s = "null" then .val none
  else if s = "\x7b\x7d" then .val (some sampleUser)
  else .err

/-- Persisted storage whose user entry is the word null: all three entries
present and non-empty, and the user entry is valid JSON. -/
def nullUserStorage : Storage := ⟨some "a", some "r", some "null"⟩

/-- Persisted storage whose access-token entry is present but empty. -/
def emptyAccessTokenStorage : Storage := ⟨some "", some "r", some "\x7b\x7d"⟩

/-- Persisted storage with all three entries present, non-empty, and a
parseable user entry. -/
def wellFormedStorage : Storage := ⟨some "a", some "r", some "\x7b\x7d"⟩

/-- A 401 response translated by the transport: an `ApiError`, not an
`AuthError`. -/
def err401 : ReqError := .sdk (.apiError "Unauthorized" 401 ⟨none, "unauthorized"⟩)

/-- A stale persisted access token with no refresh token. -/
def staleStorage : Storage := ⟨some "stale", none, none⟩

/-- Client state for C2: empty in-memory auth, stale storage. -/
def sC2 : SdkState := ⟨emptyAuthState, staleStorage⟩

/-- World for C2: the request always yields the 401 `ApiError`. -/
def wC2 : MarWorld Nat := ⟨fun _ => .error err401, none, fun _ => .error err401⟩

/-- Authenticated client state for C1. -/
def sC1 : SdkState :=
  ⟨⟨some sampleUser, some ⟨"acc", "ref"⟩, true⟩,
    ⟨some "acc", some "ref", some (stringifyUser sampleUser)⟩⟩

/-- World for C1: the first request yields the 401 `ApiError`, the refresh
would succeed with a new access token, and the retried request would
succeed with the value 42. -/
def wC1 : MarWorld Nat := ⟨fun _ => .error err401, some "newacc", fun _ => .ok 42⟩

/-! ## Realtime manager: `RealtimeClient` from src/realtime/client.ts -/

/-- A server→client realtime frame after JSON parsing. -/
structure RealtimeMessage where
  type : String
  channel : String
  event : String
  payload : String
deriving DecidableEq, Repr

/-- A registered subscription; `cbId` identifies the callback closure. -/
structure Subscription where
  id : String
  channel : String
  event : Option String
  cbId : Nat
deriving DecidableEq, Repr

/-- The subscription registry: the `Map` from generated identity to
subscription, as an insertion-ordered association list. -/
abbrev Registry := List (String × Subscription)

/-- `RealtimeClient.handleMessage` restricted to successfully parsed
frames: a pong frame invokes nothing; otherwise every registered
subscription whose channel equals the frame channel and whose event filter
is falsy (`!subscription.event`: unset or empty) or strictly equal to the
frame event is invoked with the frame payload, in registry order.  The
result lists the invoked callbacks with the payload each received. -/
def handleMessage (subs : Registry) (m : RealtimeMessage) : List (Nat × String) :=
  if m.type = "pong" then []
  else
    subs.filterMap fun p =>
      if p.2.channel = m.channel ∧ (optStrTruthy p.2.event = false ∨ p.2.event = some m.event)
      then some (p.2.cbId, m.payload)
      else none

/-- The generated subscription identity of `RealtimeClient.subscribe`:
the template literal joining channel, `options.event || 'all'`, and the
decimal rendering of the creation timestamp with underscores. -/
def subscribeId (channel : String) (event : Option String) (now : Nat) : String :=
  channel ++ "_" ++ jsStrOr event "all" ++ "_" ++ toString now

/-- JS `Map.set` on the association-list registry: replace the entry in
place when the key already exists, otherwise append. -/
def mapSet (m : Registry) (k : String) (v : Subscription) : Registry :=
  if m.any (fun p => p.1 == k) then
    m.map (fun p => if p.1 = k then (k, v) else p)
  else m ++ [(k, v)]

/-- Registry effect of `RealtimeClient.subscribe`: build the identity and
`Map.set` the new subscription under it. -/
def subscribe (m : Registry) (channel : String) (event : Option String)
    (cbId : Nat) (now : Nat) : Registry :=
  let i := subscribeId channel event now
  mapSet m i ⟨i, channel, event, cbId⟩

/-- Realtime configuration after defaulting (`Required<RealtimeConfig>`). -/
structure RealtimeConfig where
  autoReconnect : Bool
  maxRetries : Nat
  retryDelay : Nat
deriving DecidableEq, Repr

/-- The `ConnectionState` record of src/realtime/types.ts. -/
structure ConnectionState where
  connected : Bool
  connecting : Bool
  reconnecting : Bool
deriving DecidableEq, Repr

/-- Connection-level state of a `RealtimeClient`: the connection state,
the retry counter, and the delay of the reconnect timer currently
scheduled (`none` when no timer is pending). -/
structure RtState where
  conn : ConnectionState
  retryCount : Nat
  pendingReconnectDelay : Option Nat
deriving DecidableEq, Repr

/-- `RealtimeClient.handleDisconnection`: mark disconnected; if
auto-reconnect is on and the retry counter is below the maximum, mark
reconnecting, increment the counter, and schedule one reconnect after
`retryDelay * 2^(retryCount - 1)` milliseconds computed from the
incremented counter (equal to `retryDelay * 2^k` for the counter value `k`
at the moment of the close). -/
def handleDisconnection (cfg : RealtimeConfig) (s : RtState) : RtState :=
  let s1 : RtState :=
    ⟨⟨false, s.conn.connecting, s.conn.reconnecting⟩, s.retryCount, s.pendingReconnectDelay⟩
  if cfg.autoReconnect && decide (s1.retryCount < cfg.maxRetries) then
    let newCount := s1.retryCount + 1
    ⟨⟨s1.conn.connected, s1.conn.connecting, true⟩, newCount,
      some (cfg.retryDelay * 2 ^ (newCount - 1))⟩
  else s1

/-- The `onopen` handler of `RealtimeClient.connect`: connected, not
connecting, not reconnecting, retry counter reset to zero. -/
def handleOpen (s : RtState) : RtState :=
  ⟨⟨true, false, false⟩, 0, s.pendingReconnectDelay⟩

/-- `RealtimeClient.disconnect`: cancel any pending reconnect timer and
reset the connection state; the retry counter is not touched. -/
def disconnectClient (s : RtState) : RtState :=
  ⟨⟨false, false, false⟩, s.retryCount, none⟩

/-- Entry of `RealtimeClient.connect`: a no-op when already connected or
connecting, otherwise mark connecting. -/
def connectStart (s : RtState) : RtState :=
  if s.conn.connected || s.conn.connecting then s
  else ⟨⟨s.conn.connected, true, s.conn.reconnecting⟩, s.retryCount, s.pendingReconnectDelay⟩

/-- Connection-level events of a `RealtimeClient`. -/
inductive RtAction where
  | openEvt
  | closeEvt
  | disconnectCall
  | connectCall
deriving DecidableEq, Repr

/-- The state effect of one connection-level event. -/
def rtStep (cfg : RealtimeConfig) (s : RtState) : RtAction → RtState
  | .openEvt => handleOpen s
  | .closeEvt => handleDisconnection cfg s
  | .disconnectCall => disconnectClient s
  | .connectCall => connectStart s

/-- A subscription with an empty-string event filter on channel users. -/
def subEmptyEvent : Subscription := ⟨"users__1", "users", some "", 7⟩

/-- Registry holding only `subEmptyEvent`. -/
def subsE : Registry := [("users__1", subEmptyEvent)]

/-- An insert frame on channel users. -/
def mIns : RealtimeMessage := ⟨"data", "users", "insert", "p"⟩

/-- A pong frame. -/
def mPong : RealtimeMessage := ⟨"pong", "users", "insert", "p"⟩

/-- Registry for the C8 witness: a wildcard subscription and an
insert-filtered subscription on channel users, and one subscription on
channel orders. -/
def subsW : Registry :=
  [("users_all_1", ⟨"users_all_1", "users", none, 1⟩),
   ("users_insert_2", ⟨"users_insert_2", "users", some "insert", 2⟩),
   ("orders_all_3", ⟨"orders_all_3", "orders", none, 3⟩)]

/-- Registry after one subscribe call on channel users at timestamp 1000. -/
def regOnce : Registry := subscribe [] "users" none 1 1000

/-- Registry after a second subscribe call with the same channel, event,
and timestamp but a different callback. -/
def regTwice : Registry := subscribe regOnce "users" none 2 1000

/-- Realtime configuration for the C9 witness. -/
def cfgRt : RealtimeConfig := ⟨true, 5, 1000⟩

/-- A freshly connected realtime state. -/
def sRt : RtState := ⟨⟨true, false, false⟩, 0, none⟩

/-- A pre-existing subscription under an unrelated identity. -/
def subOther : Subscription := ⟨"a_all_1", "a", none, 9⟩

/-- Registry holding only `subOther`. -/
def regOther : Registry := [("a_all_1", subOther)]

/-! ## Transport theorems -/

theorem isTransportKind_handleAxiosError (e : AxiosError) :
    isTransportKind (handleAxiosError e) = true := by
  unfold handleAxiosError
  split
  · rfl
  · cases e.response <;> simp [isTransportKind]

theorem requestLoop_attempts_pos (rc : RetryConfig) (f : Nat → AttemptOutcome α)
    (attempt fuel : Nat) (h : 1 ≤ fuel) :
    1 ≤ (requestLoop rc f attempt fuel).attempts := by
  cases fuel with
  | zero => omega
  | succ n =>
    simp only [requestLoop]
    cases hfa : f attempt <;> simp only []
    · simp
    · split
      · simp
      · split <;> simp
    · simp

theorem requestLoop_attempts_ge (rc : RetryConfig) (f : Nat → AttemptOutcome α) :
    ∀ (k attempt fuel : Nat),
      (∀ i, attempt ≤ i → i ≤ attempt + k →
        ∃ e, f i = .axios e ∧ failFastEligible e i = false) →
      attempt + k < rc.maxRetries →
      attempt + k + 2 ≤ attempt + fuel →
      k + 2 ≤ (requestLoop rc f attempt fuel).attempts := by
  intro k
  induction k with
  | zero =>
    intro attempt fuel hax hlt hfuel
    obtain ⟨e, hfe, hff⟩ := hax attempt le_rfl (by omega)
    cases fuel with
    | zero => omega
    | succ fuel =>
      simp only [requestLoop, hfe, hff, Bool.false_eq_true, if_false,
        if_pos (by omega : attempt < rc.maxRetries)]
      have := requestLoop_attempts_pos rc f (attempt + 1) fuel (by omega)
      simpa using this
  | succ k ih =>
    intro attempt fuel hax hlt hfuel
    obtain ⟨e, hfe, hff⟩ := hax attempt le_rfl (by omega)
    cases fuel with
    | zero => omega
    | succ fuel =>
      simp only [requestLoop, hfe, hff, Bool.false_eq_true, if_false,
        if_pos (by omega : attempt < rc.maxRetries)]
      have := ih (attempt + 1) fuel
        (fun i h1 h2 => hax i (by omega) (by omega)) (by omega) (by omega)
      simpa using Nat.succ_le_succ this

theorem calculateDelay_mono (rc : RetryConfig) (a : Nat) :
    calculateDelay rc a ≤ calculateDelay rc (a + 1) := by
  unfold calculateDelay
  exact min_le_min
    (Nat.mul_le_mul_left _ (Nat.pow_le_pow_right (by norm_num) (Nat.le_succ a))) le_rfl

theorem delaysFrom_chain (rc : RetryConfig) :
    ∀ (n a : Nat), List.Chain' (· ≤ ·) (delaysFrom rc a n) := by
  intro n
  induction n with
  | zero => intro a; simp [delaysFrom]
  | succ m ih =>
    intro a
    cases m with
    | zero => simp [delaysFrom]
    | succ k =>
      rw [delaysFrom, delaysFrom]
      refine (List.chain'_cons).2 ⟨calculateDelay_mono rc a, ?_⟩
      rw [← delaysFrom]
      exact ih (a + 1)

theorem delaysFrom_eq_map (rc : RetryConfig) :
    ∀ (n a : Nat),
      delaysFrom rc a n = (List.range n).map (fun i => calculateDelay rc (a + i)) := by
  intro n
  induction n with
  | zero => intro a; rfl
  | succ m ih =>
    intro a
    rw [List.range_succ_eq_map]
    simp only [delaysFrom, List.map_cons, Nat.add_zero, List.map_map]
    refine congrArg₂ _ rfl ?_
    rw [ih (a + 1)]
    refine List.map_congr_left ?_
    intro i _
    simp only [Function.comp]
    congr 1
    omega

theorem requestLoop_all_retryable (rc : RetryConfig) (f : Nat → AttemptOutcome α)
    (eL : AxiosError) (hL : f rc.maxRetries = .axios eL) :
    ∀ (fuel attempt : Nat), attempt ≤ rc.maxRetries →
      attempt + fuel = rc.maxRetries + 1 →
      (∀ i, attempt ≤ i → i ≤ rc.maxRetries → isRetryableFailure (f i) = true) →
      requestLoop rc f attempt fuel =
        ⟨.error (.sdk (handleAxiosError eL)), fuel, delaysFrom rc attempt (fuel - 1)⟩ := by
  intro fuel
  induction fuel with
  | zero => intro attempt h1 h2 _; omega
  | succ m ih =>
    intro attempt h1 h2 hall
    have hra := hall attempt le_rfl h1
    simp only [requestLoop]
    cases hfa : f attempt with
    | ok v => rw [hfa] at hra; simp [isRetryableFailure] at hra
    | other tag => rw [hfa] at hra; simp [isRetryableFailure] at hra
    | axios e =>
      rw [hfa] at hra
      simp only [isRetryableFailure] at hra
      have hshape : e.response = none ∨ ∃ r, e.response = some r ∧ 500 ≤ r.status := by
        cases hr : e.response with
        | none => exact .inl rfl
        | some r =>
          rw [hr] at hra
          exact .inr ⟨r, rfl, of_decide_eq_true hra⟩
      have hff : failFastEligible e attempt = false := by
        unfold failFastEligible
        rcases hshape with h | ⟨r, hr, h5⟩
        · rw [h]
        · rw [hr]
          have hd : decide (r.status < 500) = false := decide_eq_false (by omega)
          show (!(r.status == 0) && decide (r.status < 500) && (attempt == 0)) = false
          rw [hd]
          simp
      simp only [hff, Bool.false_eq_true, if_false]
      by_cases hlt : attempt < rc.maxRetries
      · rw [if_pos hlt]
        have hrec := ih (attempt + 1) (by omega) (by omega)
          (fun i hi1 hi2 => hall i (by omega) hi2)
        rw [hrec]
        cases m with
        | zero => omega
        | succ m => simp [delaysFrom]
      · rw [if_neg hlt]
        have ha : attempt = rc.maxRetries := by omega
        have hm0 : m = 0 := by omega
        subst ha hm0
        rw [hfa] at hL
        cases hL
        simp [delaysFrom]

/-- C3: a request whose first attempt receives an HTTP response with a
client-error (4xx) status fails immediately: `HttpClient.request` throws
an `ApiError` carrying that status and the response body, makes exactly
one attempt, and inserts no backoff delay.  (An axios error that carries a
completed 4xx response is not an `ECONNABORTED` timeout abort, hence the
`code` hypothesis.) -/
theorem http_request_4xx_first_attempt_fails_fast {α : Type}
    (rc : RetryConfig) (f : Nat → AttemptOutcome α)
    (e : AxiosError) (r : AxiosResponse)
    (hf : f 0 = .axios e) (hcode : e.code ≠ some "ECONNABORTED")
    (hresp : e.response = some r) (h4 : 400 ≤ r.status) (h5 : r.status < 500) :
    request rc f =
      ⟨.error (.sdk (.apiError (jsStrOr r.data.message e.message) r.status r.data)),
        1, []⟩ := by
  have hff : failFastEligible e 0 = true := by
    unfold failFastEligible
    rw [hresp]
    simp only [beq_iff_eq]
    have h0 : ¬ r.status = 0 := by omega
    simp [h0, h5]
  have hha : handleAxiosError e =
      .apiError (jsStrOr r.data.message e.message) r.status r.data := by
    unfold handleAxiosError
    rw [if_neg hcode, hresp]
  simp only [request, requestLoop, hf, hff, if_pos, hha]

theorem http_request_4xx_first_attempt_fails_fast_witness :
    request rcW f404 =
      ⟨.error (.sdk (.apiError "Request failed with status code 404" 404 ⟨none, "nf"⟩)),
        1, []⟩ :=
  http_request_4xx_first_attempt_fails_fast rcW f404 axios404 ⟨404, ⟨none, "nf"⟩⟩
    rfl (by decide) rfl (by decide) (by decide)

/-- C4 counterexample: the claim says a 4xx response received on an
attempt after the first is never followed by a further retry attempt.  In
the run below attempt 0 receives a 500, attempt 1 receives a 404, and the
loop nevertheless performs attempt 2 (which succeeds): three attempts in
total with two backoff delays, refuting the claim. -/
theorem http_request_4xx_later_attempt_retried_cex :
    fC4 1 = .axios axios404 ∧
    axios404.response = some ⟨404, ⟨none, "nf"⟩⟩ ∧
    request rcC4 fC4 = ⟨.ok 7, 3, [1, 2]⟩ ∧
    ¬ (request rcC4 fC4).attempts ≤ 2 := by
  refine ⟨rfl, rfl, by decide, by decide⟩

/-- C4 amended: the fail-fast path applies only on the first attempt.  On
every later attempt any axios failure — including a response with a 4xx
status — is retried as long as attempts remain: if attempts `0..n` all
fail with axios errors none of which triggers the first-attempt fail-fast
test, and `n < maxRetries`, then the failure at attempt `n` is followed by
at least one further attempt (at least `n + 2` attempts happen in
total). -/
theorem http_request_post_first_failures_retried {α : Type}
    (rc : RetryConfig) (f : Nat → AttemptOutcome α) (n : Nat)
    (hax : ∀ i, i ≤ n → ∃ e, f i = .axios e ∧ failFastEligible e i = false)
    (hn : n < rc.maxRetries) :
    n + 2 ≤ (request rc f).attempts := by
  have := requestLoop_attempts_ge rc f n 0 (rc.maxRetries + 1)
    (fun i h1 h2 => hax i (by omega)) (by omega) (by omega)
  simpa [request] using this

theorem http_request_post_first_failures_retried_witness :
    1 + 2 ≤ (request rcC4 fC4).attempts :=
  http_request_post_first_failures_retried rcC4 fC4 1
    (by
      intro i hi
      interval_cases i
      · exact ⟨axios500, rfl, by decide⟩
      · exact ⟨axios404, rfl, by decide⟩)
    (by decide)

/-- C5: if every attempt fails transiently (no response, or a 5xx
response), `HttpClient.request` performs exactly `maxRetries + 1`
attempts; the backoff delay after the failed attempt with index `n` is
`min(baseDelay * 2^n, maxDelay)`, so the delay sequence is non-decreasing
and capped; and the terminal thrown error is the translation of the last
axios failure, which is exactly one of `TimeoutError`, `NetworkError`, or
`ApiError`. -/
theorem http_request_all_transient_exhausts_retries {α : Type}
    (rc : RetryConfig) (f : Nat → AttemptOutcome α)
    (hall : ∀ i, i ≤ rc.maxRetries → isRetryableFailure (f i) = true) :
    (request rc f).attempts = rc.maxRetries + 1 ∧
    (request rc f).delays =
      (List.range rc.maxRetries).map (fun n => min (rc.baseDelay * 2 ^ n) rc.maxDelay) ∧
    List.Chain' (· ≤ ·) (request rc f).delays ∧
    ∃ e, f rc.maxRetries = .axios e ∧
      (request rc f).result = .error (.sdk (handleAxiosError e)) ∧
      isTransportKind (handleAxiosError e) = true := by
  have hrL := hall rc.maxRetries le_rfl
  obtain ⟨eL, hL⟩ : ∃ e, f rc.maxRetries = .axios e := by
    cases hfa : f rc.maxRetries with
    | ok v => rw [hfa] at hrL; simp [isRetryableFailure] at hrL
    | other tag => rw [hfa] at hrL; simp [isRetryableFailure] at hrL
    | axios e => exact ⟨e, rfl⟩
  have hrun := requestLoop_all_retryable rc f eL hL (rc.maxRetries + 1) 0
    (by omega) (by omega) (fun i _ h2 => hall i h2)
  have hreq : request rc f =
      ⟨.error (.sdk (handleAxiosError eL)), rc.maxRetries + 1,
        delaysFrom rc 0 rc.maxRetries⟩ := by
    simpa [request] using hrun
  refine ⟨by rw [hreq], ?_, ?_, eL, hL, by rw [hreq], isTransportKind_handleAxiosError eL⟩
  · rw [hreq]
    simp only []
    rw [delaysFrom_eq_map]
    refine List.map_congr_left ?_
    intro i _
    simp [calculateDelay]
  · rw [hreq]
    exact delaysFrom_chain rc rc.maxRetries 0

theorem http_request_all_transient_exhausts_retries_witness :
    (request rcTm fTm).attempts = rcTm.maxRetries + 1 ∧
    (request rcTm fTm).delays =
      (List.range rcTm.maxRetries).map (fun n => min (rcTm.baseDelay * 2 ^ n) rcTm.maxDelay) ∧
    List.Chain' (· ≤ ·) (request rcTm fTm).delays ∧
    ∃ e, fTm rcTm.maxRetries = .axios e ∧
      (request rcTm fTm).result = .error (.sdk (handleAxiosError e)) ∧
      isTransportKind (handleAxiosError e) = true :=
  http_request_all_transient_exhausts_retries rcTm fTm (fun i _ => rfl)

/-! ## Auth-manager theorems -/

theorem saveAuthState_auth (s : SdkState) : (saveAuthState s).auth = s.auth := by
  unfold saveAuthState
  cases s.auth.tokens <;> cases s.auth.user <;> rfl

theorem authInvariant_empty : AuthInvariant emptyAuthState := by
  simp [AuthInvariant, emptyAuthState]

theorem authInvariant_clear (s : SdkState) : AuthInvariant (clearAuthState s).auth :=
  authInvariant_empty

theorem authInvariant_refreshStep (s : SdkState) (out : Option String)
    (h : AuthInvariant s.auth) : AuthInvariant (refreshStep s out).auth := by
  unfold refreshStep
  split
  · cases out with
    | none => exact h
    | some newTok =>
      cases ht : s.auth.tokens with
      | none => simpa using h
      | some t =>
        simp only [ht, saveAuthState_auth]
        obtain ⟨h1, h2⟩ := h
        rw [ht] at h1 h2
        simp only [Option.isSome_some, true_and, true_iff] at h1 h2
        constructor
        · simpa using h1
        · simpa using h2
  · exact h

theorem authInvariant_loginStep (s : SdkState) (out : Option (LoginResponse × String))
    (h : AuthInvariant s.auth) : AuthInvariant (loginStep s out).auth := by
  unfold loginStep
  cases out with
  | none => exact h
  | some p =>
    rw [saveAuthState_auth]
    simp [AuthInvariant]

theorem authInvariant_getUserStep (s : SdkState) (out : GetUserOutcome)
    (h : AuthInvariant s.auth) : AuthInvariant (getUserStep s out).auth := by
  unfold getUserStep
  split
  · cases out with
    | ok u =>
      rename_i hauth
      rw [saveAuthState_auth]
      obtain ⟨h1, h2⟩ := h
      have htok : s.auth.tokens.isSome := (h1.1 hauth).1
      exact ⟨by simpa [htok] using hauth, by simp [htok]⟩
    | authFailure => exact authInvariant_clear s
    | otherFailure => exact h
  · exact h

theorem authInvariant_mar (k : String) (s : SdkState) (w : MarWorld α)
    (h : AuthInvariant s.auth) :
    AuthInvariant (makeAuthenticatedRequest k s w).state.auth := by
  simp only [makeAuthenticatedRequest]
  cases hfr : w.firstReq (getAuthHeaders k s.auth) with
  | ok v => exact h
  | error e =>
    simp only []
    split
    · cases hro : w.refreshOut with
      | none => exact authInvariant_clear s
      | some tok =>
        simp only []
        cases hrr : w.retryReq (getAuthHeaders k (refreshStep s (some tok)).auth) with
        | ok v => exact authInvariant_refreshStep s (some tok) h
        | error e2 => exact authInvariant_empty
    · exact h

theorem stepAuth_invariant (s : SdkState) (a : AuthAction)
    (h : AuthInvariant s.auth) : AuthInvariant (stepAuth s a).auth := by
  cases a with
  | loginAct out => exact authInvariant_loginStep s out h
  | registerAct => exact h
  | refreshAct out => exact authInvariant_refreshStep s out h
  | logoutAct => exact authInvariant_clear s
  | getUserAct out => exact authInvariant_getUserStep s out h
  | marAct k w => exact authInvariant_mar k s w h

theorem runAuth_invariant (l : List AuthAction) :
    ∀ (s : SdkState), AuthInvariant s.auth → AuthInvariant (runAuth s l).auth := by
  induction l with
  | nil => intro s h; exact h
  | cons a rest ih => intro s h; exact ih _ (stepAuth_invariant s a h)

theorem loadAuthState_invariant (store : Storage) (parse : String → ParseOutcome)
    (hg : GoodRestore store parse) :
    AuthInvariant (loadAuthState store parse).auth := by
  obtain ⟨ta, tr, tu⟩ := store
  cases ta with
  | none => exact authInvariant_empty
  | some a =>
    cases tr with
    | none => exact authInvariant_empty
    | some r =>
      cases tu with
      | none => exact authInvariant_empty
      | some uStr =>
        simp only [loadAuthState]
        split
        · cases hp : parse uStr with
          | err => exact authInvariant_empty
          | val u =>
            cases u with
            | none => exact absurd hp (hg uStr rfl)
            | some u0 => simp [AuthInvariant]
        · exact authInvariant_empty

/-- C6 amended: the invariant — the authenticated flag holds iff both
tokens and a user are present, and tokens and user never occur without
each other — holds in every state reachable from construction by any
sequence of login, register, refresh, logout, getUser, and
makeAuthenticatedRequest operations with any outcomes, provided the
persisted user entry read at construction does not parse to JSON null
(which is the case for storage written by the SDK itself). -/
theorem auth_state_invariant_reachable (store : Storage)
    (parse : String → ParseOutcome) (l : List AuthAction)
    (hg : GoodRestore store parse) :
    AuthInvariant (runAuth (loadAuthState store parse) l).auth :=
  runAuth_invariant l _ (loadAuthState_invariant store parse hg)

theorem auth_state_invariant_reachable_witness :
    AuthInvariant
      (runAuth (loadAuthState wellFormedStorage jsonParseModel)
        [.refreshAct (some "n"), .logoutAct]).auth :=
  auth_state_invariant_reachable wellFormedStorage jsonParseModel
    [.refreshAct (some "n"), .logoutAct]
    (fun uStr h => by
      cases h
      decide)

/-- C6 counterexample: the state reached by the empty operation sequence
from construction over storage whose three entries are present and
non-empty but whose user entry is the JSON text null violates the claimed
invariant: `JSON.parse` succeeds with the null value, the source stores it
unchecked, and the resulting state is authenticated with tokens present
and no user. -/
theorem auth_invariant_null_user_cex :
    (runAuth (loadAuthState nullUserStorage jsonParseModel) []).auth =
      ⟨none, some ⟨"a", "r"⟩, true⟩ ∧
    ¬ AuthInvariant (runAuth (loadAuthState nullUserStorage jsonParseModel) []).auth := by
  refine ⟨by decide, by decide⟩

/-- C7 amended: restoration from persisted storage.  If all three entries
are present and non-empty and the user entry parses to a non-null value,
the client restores to the authenticated state holding exactly the parsed
user and the two persisted tokens.  If the three entries are not all
present-and-non-empty, or the user entry fails to parse, the in-memory
state is the empty one: not authenticated, no user, and no tokens (no
partial state leaks). -/
theorem restore_from_storage (store : Storage) (parse : String → ParseOutcome) :
    (∀ a r uStr u, store = ⟨some a, some r, some uStr⟩ →
      strTruthy a = true → strTruthy r = true → strTruthy uStr = true →
      parse uStr = .val (some u) →
      (loadAuthState store parse).auth = ⟨some u, some ⟨a, r⟩, true⟩) ∧
    ((optStrTruthy store.access_token && optStrTruthy store.refresh_token &&
        optStrTruthy store.selfdb_user) = false →
      (loadAuthState store parse).auth = emptyAuthState) ∧
    (∀ a r uStr, store = ⟨some a, some r, some uStr⟩ →
      strTruthy a = true → strTruthy r = true → strTruthy uStr = true →
      parse uStr = .err →
      (loadAuthState store parse).auth = emptyAuthState) := by
  obtain ⟨ta, tr, tu⟩ := store
  refine ⟨?_, ?_, ?_⟩
  · intro a r uStr u hst hta htr htu hp
    injection hst with h1 h2 h3
    subst h1 h2 h3
    simp [loadAuthState, hta, htr, htu, hp]
  · intro hfalse
    cases ta with
    | none => rfl
    | some a =>
      cases tr with
      | none => rfl
      | some r =>
        cases tu with
        | none => rfl
        | some uStr =>
          simp only [optStrTruthy] at hfalse
          simp only [loadAuthState]
          rw [if_neg (by simp [hfalse])]
  · intro a r uStr hst hta htr htu hp
    injection hst with h1 h2 h3
    subst h1 h2 h3
    simp [loadAuthState, hta, htr, htu, hp, clearAuthState]

theorem restore_from_storage_witness :
    (loadAuthState wellFormedStorage jsonParseModel).auth =
      ⟨some sampleUser, some ⟨"a", "r"⟩, true⟩ ∧
    (loadAuthState ⟨none, some "r", some "x"⟩ jsonParseModel).auth = emptyAuthState :=
  ⟨(restore_from_storage wellFormedStorage jsonParseModel).1 "a" "r" "\x7b\x7d"
      sampleUser rfl (by decide) (by decide) (by decide) (by decide),
    (restore_from_storage ⟨none, some "r", some "x"⟩ jsonParseModel).2.1 (by decide)⟩

/-- C7 counterexample: storage whose three entries are all present
(`isSome`) and whose user entry parses, but whose access-token entry is
the empty string.  The claim says restoration must succeed; the source's
truthiness test `accessToken && refreshToken && userString` rejects the
empty string, so the client restores to the unauthenticated empty
state. -/
theorem restore_present_empty_entry_cex :
    emptyAccessTokenStorage.access_token.isSome = true ∧
    emptyAccessTokenStorage.refresh_token.isSome = true ∧
    emptyAccessTokenStorage.selfdb_user.isSome = true ∧
    jsonParseModel "\x7b\x7d" = .val (some sampleUser) ∧
    (loadAuthState emptyAccessTokenStorage jsonParseModel).auth.isAuthenticated = false ∧
    (loadAuthState emptyAccessTokenStorage jsonParseModel).auth = emptyAuthState := by
  refine ⟨rfl, rfl, rfl, by decide, by decide, by decide⟩

/-- C2 amended: when `makeAuthenticatedRequest` fails and no truthy
refresh token is stored — in particular on an HTTP 401, which the
transport surfaces as an `ApiError` — the call rethrows the original
error immediately: no refresh call, no second attempt, and both the
in-memory auth state and the persisted storage are left exactly as they
were (no clearing occurs). -/
theorem mar_error_without_refresh_token_propagates {α : Type}
    (anonKey : String) (s : SdkState) (w : MarWorld α) (e : ReqError)
    (hrt : refreshTokenTruthy s.auth = false)
    (hfail : w.firstReq (getAuthHeaders anonKey s.auth) = .error e) :
    makeAuthenticatedRequest anonKey s w = ⟨s, .error e, 1, 0⟩ := by
  simp only [makeAuthenticatedRequest, hfail]
  simp [hrt]

theorem mar_error_without_refresh_token_propagates_witness :
    makeAuthenticatedRequest "anon" sC2 wC2 = ⟨sC2, .error err401, 1, 0⟩ :=
  mar_error_without_refresh_token_propagates "anon" sC2 wC2 err401 rfl rfl

/-- C2 counterexample: a 401 `ApiError` with no refresh token stored.  The
call does fail immediately with the original error, with no refresh and no
second attempt — but contrary to the claim nothing is cleared: the stale
persisted access-token entry survives the call. -/
theorem mar_401_no_refresh_token_not_cleared_cex :
    (makeAuthenticatedRequest "anon" sC2 wC2).result = .error err401 ∧
    (makeAuthenticatedRequest "anon" sC2 wC2).refreshCalls = 0 ∧
    (makeAuthenticatedRequest "anon" sC2 wC2).attempts = 1 ∧
    (makeAuthenticatedRequest "anon" sC2 wC2).state.store.access_token = some "stale" ∧
    ¬ (makeAuthenticatedRequest "anon" sC2 wC2).state.store.access_token = none := by
  refine ⟨by decide, by decide, by decide, by decide, by decide⟩

/-- C1 evidence of the code bug: an authenticated client holding a truthy
refresh token receives a 401 on the first attempt, the refresh would
succeed, and the retried request would succeed — yet the call performs no
refresh and no retry and rethrows the 401, because the transport
classifies a 401 response as `ApiError` while the catch tests
`error instanceof AuthError`, which never matches an HTTP 401. -/
theorem mar_401_refresh_retry_dead_code :
    refreshTokenTruthy sC1.auth = true ∧
    isAuthErrorThrown err401 = false ∧
    wC1.refreshOut = some "newacc" ∧
    wC1.retryReq (getAuthHeaders "anon" sC1.auth) = .ok 42 ∧
    makeAuthenticatedRequest "anon" sC1 wC1 = ⟨sC1, .error err401, 1, 0⟩ := by
  refine ⟨by decide, by decide, by decide, by decide, by decide⟩

/-! ## Realtime theorems -/

/-- C8 amended: a frame tagged pong invokes no callbacks; for every other
frame, a callback is invoked with a payload exactly when it belongs to a
registered subscription whose channel equals the frame channel and whose
event filter is falsy — unset *or the empty string* — or equal to the
frame event, and the payload passed is the frame payload.  Fan-out is
inherent: every matching subscription in the registry is invoked. -/
theorem dispatch_matching (subs : Registry) (m : RealtimeMessage) (cb : Nat) (pl : String) :
    (m.type = "pong" → handleMessage subs m = []) ∧
    (m.type ≠ "pong" →
      ((cb, pl) ∈ handleMessage subs m ↔
        ∃ p ∈ subs, p.2.cbId = cb ∧ pl = m.payload ∧ p.2.channel = m.channel ∧
          (optStrTruthy p.2.event = false ∨ p.2.event = some m.event))) := by
  constructor
  · intro h
    simp [handleMessage, h]
  · intro h
    simp only [handleMessage, if_neg h, List.mem_filterMap]
    constructor
    · rintro ⟨p, hp, hcond⟩
      by_cases hc : p.2.channel = m.channel ∧
          (optStrTruthy p.2.event = false ∨ p.2.event = some m.event)
      · rw [if_pos hc] at hcond
        simp only [Option.some.injEq, Prod.mk.injEq] at hcond
        obtain ⟨hcb, hpl⟩ := hcond
        exact ⟨p, hp, hcb, hpl.symm, hc.1, hc.2⟩
      · rw [if_neg hc] at hcond
        exact absurd hcond (by simp)
    · rintro ⟨p, hp, hcb, hpl, hch, hev⟩
      refine ⟨p, hp, ?_⟩
      rw [if_pos ⟨hch, hev⟩, hcb, hpl]

theorem dispatch_matching_witness :
    handleMessage subsW mPong = [] ∧ (1, "p") ∈ handleMessage subsW mIns :=
  ⟨(dispatch_matching subsW mPong 0 "").1 rfl,
    ((dispatch_matching subsW mIns 1 "p").2 (by decide)).2
      ⟨("users_all_1", ⟨"users_all_1", "users", none, 1⟩), by decide, rfl, rfl, rfl,
        .inl rfl⟩⟩

/-- C8 counterexample: a subscription whose event filter is *set* to the
empty string is invoked for a frame with event insert, although its filter
is neither unset nor equal to the frame event: the source's
`!subscription.event` test treats the empty filter as a wildcard. -/
theorem dispatch_empty_event_filter_cex :
    subEmptyEvent.event = some "" ∧
    subEmptyEvent.event ≠ none ∧
    subEmptyEvent.event ≠ some mIns.event ∧
    handleMessage subsE mIns = [(7, "p")] := by
  refine ⟨rfl, by decide, by decide, by decide⟩

/-- C9: on a socket close with auto-reconnect enabled and the retry
counter `k` strictly below the maximum, `handleDisconnection` schedules
exactly one reconnect whose delay is `retryDelay * 2^k` — the counter is
incremented first and the source computes
`retryDelay * Math.pow(2, retryCount - 1)` from the incremented counter —
the counter becomes `k + 1`, and the state is marked reconnecting and not
connected.  The counter is set to zero only by a successful open: every
other transition leaves a zero counter only if it was already zero. -/
theorem realtime_reconnect_backoff (cfg : RealtimeConfig) (s : RtState)
    (hA : cfg.autoReconnect = true) (hR : s.retryCount < cfg.maxRetries) :
    handleDisconnection cfg s =
      ⟨⟨false, s.conn.connecting, true⟩, s.retryCount + 1,
        some (cfg.retryDelay * 2 ^ s.retryCount)⟩ ∧
    (∀ t : RtState, (handleOpen t).retryCount = 0) ∧
    (∀ (t : RtState) (a : RtAction), (rtStep cfg t a).retryCount = 0 →
      a = .openEvt ∨ t.retryCount = 0) := by
  refine ⟨?_, fun t => rfl, ?_⟩
  · simp only [handleDisconnection]
    rw [if_pos (by simp [hA, hR])]
    simp
  · intro t a h
    cases a with
    | openEvt => exact .inl rfl
    | closeEvt =>
      right
      simp only [rtStep, handleDisconnection] at h
      split at h
      · simp at h
      · exact h
    | disconnectCall => exact .inr h
    | connectCall =>
      right
      simp only [rtStep, connectStart] at h
      split at h
      · exact h
      · exact h

theorem realtime_reconnect_backoff_witness :
    handleDisconnection cfgRt sRt = ⟨⟨false, false, true⟩, 1, some 1000⟩ ∧
    (∀ t : RtState, (handleOpen t).retryCount = 0) ∧
    (∀ (t : RtState) (a : RtAction), (rtStep cfgRt t a).retryCount = 0 →
      a = .openEvt ∨ t.retryCount = 0) :=
  realtime_reconnect_backoff cfgRt sRt rfl (by decide)

/-- C10 amended: the generated identity is the string joining channel,
event key, and creation timestamp.  Registering under an identity that
matches no existing key appends and keeps every existing entry; but two
subscribe calls with the same channel, event, and timestamp — e.g. issued
within the same millisecond — generate the *same* identity, and the
second call replaces the existing entry instead of adding one (the
registry size does not grow). -/
theorem subscribe_identity_behavior :
    (∀ (m : Registry) (channel : String) (event : Option String) (cbId now : Nat),
      (∀ p ∈ m, p.1 ≠ subscribeId channel event now) →
      subscribe m channel event cbId now =
        m ++ [(subscribeId channel event now,
          ⟨subscribeId channel event now, channel, event, cbId⟩)]) ∧
    (∀ (m : Registry) (channel : String) (event : Option String) (cbId now : Nat),
      (∃ p ∈ m, p.1 = subscribeId channel event now) →
      (subscribe m channel event cbId now).length = m.length) := by
  constructor
  · intro m channel event cbId now hfresh
    simp only [subscribe, mapSet]
    have hany : m.any (fun p => p.1 == subscribeId channel event now) = false := by
      rw [List.any_eq_false]
      intro p hp
      simpa using hfresh p hp
    simp [hany]
  · rintro m channel event cbId now ⟨p, hp, hid⟩
    simp only [subscribe, mapSet]
    have hany : m.any (fun p => p.1 == subscribeId channel event now) = true := by
      rw [List.any_eq_true]
      exact ⟨p, hp, by simpa using hid⟩
    simp [hany]

theorem subscribe_identity_behavior_witness :
    subscribe regOther "users" none 5 1000 =
      regOther ++ [("users_all_1000", ⟨"users_all_1000", "users", none, 5⟩)] ∧
    (subscribe regOnce "users" none 2 1000).length = regOnce.length :=
  ⟨subscribe_identity_behavior.1 regOther "users" none 5 1000 (by decide),
    subscribe_identity_behavior.2 regOnce "users" none 2 1000 (by decide)⟩

/-- C10 counterexample: two distinct subscribe calls with the same
channel, the same (absent) event and the same creation timestamp generate
the same identity, so the second registration replaces the first: after
both calls the registry holds a single entry, and the first callback is
gone. -/
theorem subscribe_same_ms_replaces_cex :
    regOnce = [("users_all_1000", ⟨"users_all_1000", "users", none, 1⟩)] ∧
    regTwice = [("users_all_1000", ⟨"users_all_1000", "users", none, 2⟩)] ∧
    regTwice.length = 1 ∧
    ¬ ∃ p ∈ regTwice, p.2.cbId = 1 := by
  refine ⟨by decide, by decide, by decide, by decide⟩

end SelfDB
